import Mathlib

/-!
Shallow embedding of the `classify-breed` request handler
(`supabase/functions/classify-breed/index.ts`).

The handler is a single sequential pipeline. All external collaborators
(the request-body JSON parser, the platform URL parser, the storage
service, the HTTP fetch of the image, the remote Roboflow classifier and
the relational datastore) are modelled as an oracle `World` that fixes the
outcome of each awaited call for the one request under consideration. The
handler itself is embedded as a pure function from the `World` to the HTTP
response it produces, paired with the ordered trace of external effects it
performed (storage download, image fetch, inference call, datastore upsert
and insert).

JavaScript numbers that carry confidences are modelled as rationals `ℚ`;
`x.toFixed(2)` followed by `parseFloat` is modelled as rounding to the
nearest multiple of `1/100`, ties toward `+∞`, matching the `toFixed`
specification. JavaScript truthiness of the string fields is modelled
explicitly: a field is falsy when absent or the empty string.
-/

/-- An image blob: its bytes and its content type (`blob.type`). -/
structure Blob where
  bytes : List Nat
  ctype : String
  deriving DecidableEq, Repr

/-- One raw entry of the Roboflow `predictions` array. `cls` stands for the
`class` field (a Lean keyword). Each field may be absent. -/
structure RawPred where
  cls : Option String
  predicted_class : Option String
  confidence : Option ℚ
  deriving DecidableEq, Repr

/-- A parsed Roboflow response body; the `predictions` field may be absent. -/
structure RoboflowResult where
  predictions : Option (List RawPred)
  deriving DecidableEq, Repr

/-- Outcome of the classifier call (lines 82–104 of the source): the fetch or
the base64 encoding can throw, the response can be non-ok, the body can fail
to parse as JSON, or a result is obtained. -/
inductive RoboflowOutcome where
  | fetchError (msg : String)
  | httpFail (status : Nat) (statusText : String)
  | jsonError (msg : String)
  | success (result : RoboflowResult)
  deriving DecidableEq, Repr

/-- A normalized prediction as produced on lines 112–115. -/
structure Prediction where
  breed : String
  confidence : ℚ
  deriving DecidableEq, Repr

/-- The default prediction value (lines 79–80). -/
def defaultPrediction : Prediction := ⟨"unknown", 0⟩

/-- Result of `fetch(image_url, ...)` (line 67). -/
structure FetchResult where
  ok : Bool
  status : Nat
  statusText : String
  blob : Blob
  deriving DecidableEq, Repr

/-- The row returned by the upsert's `.select().single()`; only the generated
identifier is used downstream. -/
structure DbRow where
  id : String
  deriving DecidableEq, Repr

/-- The row passed to `supabase.from('animal_records').upsert(...)`
(lines 135–143). -/
structure UpsertRow where
  user_id : String
  animal_id : String
  animal_type : String
  predicted_breed : String
  confidence_score : ℚ
  image_url : String
  verification_status : String
  deriving DecidableEq, Repr

/-- The row passed to `supabase.from('breed_predictions').insert(...)`
(lines 160–166). -/
structure LogRow where
  animal_record_id : String
  image_url : String
  predicted_breeds : List Prediction
  model_version : String
  processing_time_ms : Nat
  deriving DecidableEq, Repr

/-- The destructured request body (line 25); each field may be absent. -/
structure ReqBody where
  image_url : Option String
  animal_id : Option String
  user_id : Option String
  animal_type : Option String
  deriving DecidableEq, Repr

/-- The oracle fixing every external outcome for one request. `urlPathname`
is the `pathname` of `new URL(image_url)`, `none` when the constructor
throws. `roboflow` is the classifier-call outcome; the classifier is remote,
so its answer is oracle data rather than a function of the encoded payload.
`nowStart`/`nowEnd` are the two `Date.now()` readings. -/
structure World where
  method : String
  reqJson : Except String ReqBody
  urlPathname : Option String
  storage : String → String → Except String Blob
  imageFetch : FetchResult
  roboflow : RoboflowOutcome
  upsert : UpsertRow → Except String DbRow
  insertLog : LogRow → Except String Unit
  nowStart : Nat
  nowEnd : Nat

/-- The ordered trace of external calls the handler performs. -/
inductive Effect where
  | storageDownload (bucketId objectPath : String)
  | httpFetch (url : String)
  | roboflowCall
  | dbUpsert (row : UpsertRow) (onConflict : String)
  | dbInsert (row : LogRow)
  deriving DecidableEq, Repr

/-- A response body: either an error object `{error, details?}` or the
success payload of lines 175–184 (whose `success` field is the literal
`true`), or the empty preflight body. -/
inductive RespBody where
  | empty
  | err (error : String) (details : Option String)
  | okBody (animal_record_id : String) (predictions : List Prediction)
      (top_prediction : Prediction) (processing_time_ms : Nat)
  deriving DecidableEq, Repr

/-- An HTTP response: status code and structured JSON body. -/
structure HttpResponse where
  status : Nat
  body : RespBody
  deriving DecidableEq, Repr

/-- Model of JavaScript `String.prototype.split` with a one-character
separator, structurally recursive on the character list so that it evaluates
inside the kernel. Like the JS original it keeps empty segments (they are
filtered out afterwards by `filter(Boolean)`). -/
def splitCharAux (c : Char) : List Char → List Char → List String
  | [], acc => [String.mk acc.reverse]
  | d :: rest, acc =>
    if d = c then String.mk acc.reverse :: splitCharAux c rest []
    else splitCharAux c rest (d :: acc)

/-- Split a string on a single character, JS-`split` style. -/
def splitChar (c : Char) (s : String) : List String :=
  splitCharAux c s.data []

/-- Character-list version of the JS `startsWith` test. -/
def leadsWithChars : List Char → List Char → Bool
  | [], _ => true
  | _ :: _, [] => false
  | a :: as, b :: bs => a = b && leadsWithChars as bs

/-- Model of JavaScript `s.startsWith(p)` (line 40). -/
def jsStartsWith (s p : String) : Bool :=
  leadsWithChars p.data s.data

/-- JavaScript truthiness of a possibly-absent string: `undefined` and the
empty string are falsy. -/
def truthyS : Option String → Bool
  | none => false
  | some s => decide (s ≠ "")

/-- The JavaScript `a || b` idiom on possibly-absent strings
(line 113: `pred.class || pred.predicted_class || 'unknown'`). -/
def jsOrS (o : Option String) (d : String) : String :=
  match o with
  | some s => if s = "" then d else s
  | none => d

/-- Model of `parseFloat(x.toFixed(2))` on a rational: round to the nearest
multiple of `1/100`, ties picking the larger result. -/
def round2 (q : ℚ) : ℚ := (⌊q * 100 + 1 / 2⌋ : ℤ) / 100

/-- Normalization of one raw prediction (lines 112–115): breed from `class`,
else `predicted_class`, else `"unknown"`; confidence defaulted to `0` and
rounded to two decimals. -/
def normPred (p : RawPred) : Prediction :=
  ⟨jsOrS p.cls (jsOrS p.predicted_class "unknown"),
   round2 (p.confidence.getD 0)⟩

/-- The sort comparator of line 110, `(a, b) => b.confidence - a.confidence`,
rendered as a may-precede relation: `a` may come before `b` iff the
comparator value is `≤ 0`. When either confidence is absent the subtraction
is `NaN`, which the ECMAScript sort treats as `0`, i.e. as a tie. -/
def jsLe (a b : RawPred) : Bool :=
  match a.confidence, b.confidence with
  | some x, some y => decide (y ≤ x)
  | _, _ => true

/-- Stable insertion of an element into a list according to `jsLe`. -/
def insertPred (p : RawPred) : List RawPred → List RawPred
  | [] => [p]
  | q :: rest => if jsLe p q then p :: q :: rest else q :: insertPred p rest

/-- The stable sort of line 110. ECMAScript `Array.prototype.sort` is a
stable sort; on inputs where the comparator is consistent every stable sort
produces the same list, which this insertion sort computes. -/
def sortPreds (l : List RawPred) : List RawPred :=
  List.foldr insertPred [] l

/-- Lines 79–128: normalization of the classifier outcome into the ranked
prediction list and the top prediction. Any thrown error (encoding, network,
non-ok status, JSON parse) is caught and the defaults kept; an absent or
empty `predictions` array falls back to the same defaults. -/
def normalizeRoboflow (o : RoboflowOutcome) : List Prediction × Prediction :=
  match o with
  | .success r =>
    match r.predictions with
    | some preds =>
      if preds.length > 0 then
        let ps := ((sortPreds preds).take 3).map normPred
        (ps, ps.headD defaultPrediction)
      else ([defaultPrediction], defaultPrediction)
    | none => ([defaultPrediction], defaultPrediction)
  | _ => ([defaultPrediction], defaultPrediction)

/-- Lines 47–52: interpret the URL pathname as a storage locator. Split on
`/`, drop empty segments, find the first segment equal to `"public"`; the
next segment (which is automatically non-empty, hence truthy) is the bucket
id and the remaining segments rejoined with `/` are the object path. `none`
when the URL parse threw or the shape does not match. -/
def storageLocator (pathname : Option String) : Option (String × String) :=
  match pathname with
  | none => none
  | some p =>
    let parts := (splitChar '/' p).filter (fun s => s ≠ "")
    match parts.findIdx? (fun s => s = "public") with
    | none => none
    | some i =>
      match parts.get? (i + 1) with
      | none => none
      | some bucketId =>
        some (bucketId, String.intercalate "/" (parts.drop (i + 2)))

/-- Lines 45–72: the image resolver. Attempt the storage download when the
locator shape matches; on storage error or shape mismatch fall back to a
single HTTP fetch whose non-ok status is a thrown error. Returns the blob or
the thrown message, plus the trace of external calls. -/
def resolveImage (w : World) (image_url : String) :
    Except String Blob × List Effect :=
  let fetchStep : List Effect → Except String Blob × List Effect :=
    fun eff =>
      let r := w.imageFetch
      if r.ok then (.ok r.blob, eff ++ [.httpFetch image_url])
      else
        (.error ("Failed to fetch image: " ++ toString r.status ++ " "
            ++ r.statusText),
         eff ++ [.httpFetch image_url])
  match storageLocator w.urlPathname with
  | some (bucketId, objectPath) =>
    match w.storage bucketId objectPath with
    | .ok blob => (.ok blob, [.storageDownload bucketId objectPath])
    | .error _ => fetchStep [.storageDownload bucketId objectPath]
  | none => fetchStep []

/-- The fixed 400 message of line 29. -/
def missingFieldsMsg : String :=
  "Missing required fields: image_url, animal_id, user_id, animal_type"

/-- The `animal_records` row built on lines 135–143 from the request fields
and the top prediction. -/
def mkUpsertRow (b : ReqBody) (topPrediction : Prediction) : UpsertRow :=
  ⟨b.user_id.getD "", b.animal_id.getD "", b.animal_type.getD "",
   topPrediction.breed, topPrediction.confidence, b.image_url.getD "",
   "pending"⟩

/-- Lines 130–186: persistence and response building, entered once the image
blob has been obtained; `effs` is the trace accumulated so far. The upsert is
always attempted (its row and conflict key recorded in the trace); on upsert
error the request aborts with a 500. On success the log insert is attempted
and its own error deliberately ignored, so the response never depends on the
insert's outcome. -/
def persistStage (w : World) (b : ReqBody) (effs : List Effect) :
    HttpResponse × List Effect :=
  let pt := normalizeRoboflow w.roboflow
  let predictions := pt.1
  let topPrediction := pt.2
  let processingTime := w.nowEnd - w.nowStart
  let row := mkUpsertRow b topPrediction
  let effs3 := effs ++ [.dbUpsert row "animal_id,user_id"]
  match w.upsert row with
  | .error e =>
    (⟨500, .err "Failed to create animal record" (some e)⟩, effs3)
  | .ok rec =>
    let logRow : LogRow :=
      ⟨rec.id, b.image_url.getD "", predictions, "resnet-50-v1.0",
       processingTime⟩
    let effs4 := effs3 ++ [.dbInsert logRow]
    (⟨200, .okBody rec.id predictions topPrediction processingTime⟩, effs4)

/-- The whole request handler (lines 18–196) as a function of the oracle:
the response produced and the ordered trace of external calls. -/
def handler (w : World) : HttpResponse × List Effect :=
  if w.method = "OPTIONS" then (⟨200, .empty⟩, [])
  else
    match w.reqJson with
    | .error msg => (⟨500, .err "Internal server error" (some msg)⟩, [])
    | .ok b =>
      if ¬(truthyS b.image_url ∧ truthyS b.animal_id ∧ truthyS b.user_id
          ∧ truthyS b.animal_type) then
        (⟨400, .err missingFieldsMsg none⟩, [])
      else
        let u := b.image_url.getD ""
        if ¬(truthyS b.image_url ∧ jsStartsWith u "http") then
          (⟨500, .err "Internal server error"
              (some "Invalid image URL provided")⟩, [])
        else
          match resolveImage w u with
          | (.error msg, effs) =>
            (⟨500, .err "Internal server error" (some msg)⟩, effs)
          | (.ok _, effs) =>
            persistStage w b (effs ++ [.roboflowCall])

/-- The inference-stage failure conditions of claim C2: any thrown or non-ok
classifier call, or a parsed response whose `predictions` field is absent or
empty. -/
def inferFailure : RoboflowOutcome → Bool
  | .success r =>
    match r.predictions with
    | none => true
    | some l => l.isEmpty
  | _ => true

/-- Recognize the image HTTP-fetch effect. -/
def isImageFetch : Effect → Bool
  | .httpFetch _ => true
  | _ => false

/-- Recognize the datastore-insert effect. -/
def isDbInsert : Effect → Bool
  | .dbInsert _ => true
  | _ => false

/-- Recognize either datastore effect. -/
def isDbEffect : Effect → Bool
  | .dbUpsert _ _ => true
  | .dbInsert _ => true
  | _ => false

/-- Recognize the storage-download effect. -/
def isStorageDownload : Effect → Bool
  | .storageDownload _ _ => true
  | _ => false

/-! ### Lemmas about the stable sort of line 110 -/

/-- Inserting an element yields a permutation of consing it. -/
theorem insertPred_perm (p : RawPred) :
    ∀ l : List RawPred, (insertPred p l).Perm (p :: l) := by
  intro l
  induction l with
  | nil => simp [insertPred]
  | cons q rest ih =>
    by_cases h : jsLe p q
    · simp [insertPred, h]
    · simp only [insertPred, if_neg h]
      exact (ih.cons q).trans (List.Perm.swap p q rest)

/-- The sort of line 110 permutes its input. -/
theorem sortPreds_perm (l : List RawPred) : (sortPreds l).Perm l := by
  induction l with
  | nil => simp [sortPreds]
  | cons p rest ih =>
    have : sortPreds (p :: rest) = insertPred p (sortPreds rest) := rfl
    rw [this]
    exact (insertPred_perm p (sortPreds rest)).trans (ih.cons p)

/-- Membership is preserved by the sort. -/
theorem mem_sortPreds {q : RawPred} {l : List RawPred} :
    q ∈ sortPreds l ↔ q ∈ l :=
  (sortPreds_perm l).mem_iff

/-- When both confidences are present, the comparator of line 110 orders by
the confidence values. -/
theorem jsLe_iff_of_isSome {a b : RawPred}
    (ha : a.confidence.isSome) (hb : b.confidence.isSome) :
    jsLe a b = true ↔ b.confidence.getD 0 ≤ a.confidence.getD 0 := by
  obtain ⟨x, hx⟩ := Option.isSome_iff_exists.mp ha
  obtain ⟨y, hy⟩ := Option.isSome_iff_exists.mp hb
  simp [jsLe, hx, hy]

/-- Inserting a confidence-carrying element into a descending-sorted list of
confidence-carrying elements keeps the list descending-sorted. -/
theorem insertPred_pairwise {p : RawPred} {l : List RawPred}
    (hp : p.confidence.isSome)
    (hl : ∀ q ∈ l, q.confidence.isSome)
    (hs : l.Pairwise
      (fun a b => b.confidence.getD 0 ≤ a.confidence.getD 0)) :
    (insertPred p l).Pairwise
      (fun a b => b.confidence.getD 0 ≤ a.confidence.getD 0) := by
  induction l with
  | nil => simp [insertPred]
  | cons q rest ih =>
    have hq : q.confidence.isSome := hl q (List.mem_cons_self q rest)
    have hrest : ∀ x ∈ rest, x.confidence.isSome :=
      fun x hx => hl x (List.mem_cons_of_mem q hx)
    by_cases h : jsLe p q
    · simp only [insertPred, if_pos h]
      have hpq : q.confidence.getD 0 ≤ p.confidence.getD 0 :=
        (jsLe_iff_of_isSome hp hq).mp h
      refine List.Pairwise.cons ?_ hs
      intro x hx
      rcases List.mem_cons.mp hx with rfl | hx'
      · exact hpq
      · exact le_trans (List.rel_of_pairwise_cons hs hx') hpq
    · simp only [insertPred, if_neg h]
      have hqp : p.confidence.getD 0 < q.confidence.getD 0 := by
        have := (jsLe_iff_of_isSome hp hq).not.mp h
        exact lt_of_not_le (by simpa using this)
      refine List.Pairwise.cons ?_ (ih hrest (List.Pairwise.of_cons hs))
      intro x hx
      have hx' : x ∈ p :: rest := (insertPred_perm p rest).mem_iff.mp hx
      rcases List.mem_cons.mp hx' with rfl | hx''
      · exact le_of_lt hqp
      · exact List.rel_of_pairwise_cons hs hx''

/-- When every prediction carries a confidence, the sort of line 110 orders
them by descending confidence. -/
theorem sortPreds_pairwise {l : List RawPred}
    (h : ∀ p ∈ l, p.confidence.isSome) :
    (sortPreds l).Pairwise
      (fun a b => b.confidence.getD 0 ≤ a.confidence.getD 0) := by
  induction l with
  | nil => simp [sortPreds]
  | cons p rest ih =>
    have hp : p.confidence.isSome := h p (List.mem_cons_self p rest)
    have hrest : ∀ q ∈ rest, q.confidence.isSome :=
      fun q hq => h q (List.mem_cons_of_mem p hq)
    have hsorted :
        ∀ q ∈ sortPreds rest, q.confidence.isSome :=
      fun q hq => hrest q (mem_sortPreds.mp hq)
    exact insertPred_pairwise hp hsorted (ih hrest)

/-! ### Lemmas about the inference normalization of lines 79–128 -/

/-- The top prediction is always the head of the prediction list (line 117
and the fallback branches). -/
theorem normalizeRoboflow_snd (o : RoboflowOutcome) :
    (normalizeRoboflow o).2 = (normalizeRoboflow o).1.headD defaultPrediction := by
  cases o with
  | success r =>
    rcases r with ⟨preds⟩
    cases preds with
    | none => rfl
    | some l =>
      by_cases h : l.length > 0
      · simp [normalizeRoboflow, h]
      · simp [normalizeRoboflow, h]
  | fetchError msg => rfl
  | httpFail s t => rfl
  | jsonError msg => rfl

/-- The normalized prediction list is never empty. -/
theorem normalizeRoboflow_fst_ne_nil (o : RoboflowOutcome) :
    (normalizeRoboflow o).1 ≠ [] := by
  cases o with
  | success r =>
    rcases r with ⟨preds⟩
    cases preds with
    | none => simp [normalizeRoboflow]
    | some l =>
      by_cases h : l.length > 0
      · simp only [normalizeRoboflow, if_pos h]
        have hlen : (sortPreds l).length = l.length :=
          (sortPreds_perm l).length_eq
        intro hnil
        have hzero := congrArg List.length hnil
        rw [List.length_map, List.length_take, hlen] at hzero
        simp only [List.length_nil] at hzero
        omega
      · simp [normalizeRoboflow, h]
  | fetchError msg => simp [normalizeRoboflow]
  | httpFail s t => simp [normalizeRoboflow]
  | jsonError msg => simp [normalizeRoboflow]

/-- On every inference-stage failure the defaults of lines 79–80 survive
untouched. -/
theorem normalizeRoboflow_of_failure {o : RoboflowOutcome}
    (h : inferFailure o = true) :
    normalizeRoboflow o = ([defaultPrediction], defaultPrediction) := by
  cases o with
  | success r =>
    rcases r with ⟨preds⟩
    cases preds with
    | none => rfl
    | some l =>
      have : l = [] := by simpa [inferFailure] using h
      subst this
      rfl
  | fetchError msg => rfl
  | httpFail s t => rfl
  | jsonError msg => rfl

/-! ### Lemmas about the rounding of line 114 -/

/-- Rounding to two decimals yields an integer number of hundredths. -/
theorem round2_hundredths (q : ℚ) : ∃ k : ℤ, round2 q = (k : ℚ) / 100 :=
  ⟨⌊q * 100 + 1 / 2⌋, rfl⟩

/-- Rounding preserves nonnegativity. -/
theorem round2_nonneg {q : ℚ} (h : 0 ≤ q) : 0 ≤ round2 q := by
  have hfloor : (0 : ℤ) ≤ ⌊q * 100 + 1 / 2⌋ := by
    apply Int.floor_nonneg.mpr
    nlinarith
  rw [round2]
  positivity

/-- Rounding a value that is at most one stays at most one. -/
theorem round2_le_one {q : ℚ} (h : q ≤ 1) : round2 q ≤ 1 := by
  have hfloor : ⌊q * 100 + 1 / 2⌋ ≤ 100 := by
    have : ⌊q * 100 + 1 / 2⌋ ≤ ⌊(100 : ℚ) + 1 / 2⌋ :=
      Int.floor_le_floor (by nlinarith)
    have h100 : ⌊(100 : ℚ) + 1 / 2⌋ = 100 := by norm_num
    omega
  rw [round2, div_le_one (by norm_num)]
  exact_mod_cast hfloor

/-! ### Lemmas about the image resolver of lines 45–72 -/

/-- The resolver's trace takes exactly one of three shapes: a lone successful
storage download, a storage download followed by the fallback fetch, or a
lone fetch. -/
theorem resolveImage_trace (w : World) (u : String) :
    (∃ bk pth, storageLocator w.urlPathname = some (bk, pth) ∧
        (∃ blob, w.storage bk pth = .ok blob) ∧
        (resolveImage w u).2 = [.storageDownload bk pth]) ∨
    (∃ bk pth, storageLocator w.urlPathname = some (bk, pth) ∧
        (∃ e, w.storage bk pth = .error e) ∧
        (resolveImage w u).2 = [.storageDownload bk pth, .httpFetch u]) ∨
    (storageLocator w.urlPathname = none ∧
        (resolveImage w u).2 = [.httpFetch u]) := by
  rcases hloc : storageLocator w.urlPathname with _ | ⟨bk, pth⟩
  · right; right
    refine ⟨rfl, ?_⟩
    by_cases hok : w.imageFetch.ok <;> simp [resolveImage, hloc, hok]
  · rcases hst : w.storage bk pth with e | blob
    · right; left
      refine ⟨bk, pth, rfl, ⟨e, hst⟩, ?_⟩
      by_cases hok : w.imageFetch.ok <;> simp [resolveImage, hloc, hst, hok]
    · left
      exact ⟨bk, pth, rfl, ⟨blob, hst⟩, by simp [resolveImage, hloc, hst]⟩

/-- The resolver performs no datastore operation. -/
theorem resolveImage_no_db (w : World) (u : String) :
    ∀ e ∈ (resolveImage w u).2, isDbEffect e = false := by
  rcases resolveImage_trace w u with
    ⟨bk, pth, _, _, htr⟩ | ⟨bk, pth, _, _, htr⟩ | ⟨_, htr⟩ <;>
    rw [htr] <;> intro e he <;>
    simp only [List.mem_cons, List.not_mem_nil, or_false] at he
  · subst he; rfl
  · rcases he with rfl | rfl <;> rfl
  · subst he; rfl

/-- Rounding to two decimals is monotone. -/
theorem round2_mono {q r : ℚ} (h : q ≤ r) : round2 q ≤ round2 r := by
  have hfloor : ⌊q * 100 + 1 / 2⌋ ≤ ⌊r * 100 + 1 / 2⌋ :=
    Int.floor_le_floor (by nlinarith)
  rw [round2, round2]
  apply div_le_div_of_nonneg_right ?_ (by norm_num)
  exact_mod_cast hfloor

/-! ### Unfolding lemmas for the handler's control flow -/

/-- When validation and the URL-shape check pass and the image resolver
succeeds, the handler continues into the persistence stage with the
resolver's trace extended by the inference call. -/
theorem handler_reach_persist {w : World} {b : ReqBody} {blob : Blob}
    {effs : List Effect}
    (hm : ¬ w.method = "OPTIONS")
    (hj : w.reqJson = .ok b)
    (ht : truthyS b.image_url ∧ truthyS b.animal_id ∧ truthyS b.user_id
      ∧ truthyS b.animal_type)
    (hu : jsStartsWith (b.image_url.getD "") "http" = true)
    (hres : resolveImage w (b.image_url.getD "") = (.ok blob, effs)) :
    handler w = persistStage w b (effs ++ [.roboflowCall]) := by
  have h2 : truthyS b.image_url = true
      ∧ jsStartsWith (b.image_url.getD "") "http" = true := ⟨ht.1, hu⟩
  simp only [handler, hj, if_neg hm, if_neg (not_not_intro ht),
    if_neg (not_not_intro h2), hres]

/-- When validation passes but the image resolver throws, the handler lands
in the top-level catch with the resolver's message as the details field. -/
theorem handler_image_error {w : World} {b : ReqBody} {msg : String}
    {effs : List Effect}
    (hm : ¬ w.method = "OPTIONS")
    (hj : w.reqJson = .ok b)
    (ht : truthyS b.image_url ∧ truthyS b.animal_id ∧ truthyS b.user_id
      ∧ truthyS b.animal_type)
    (hu : jsStartsWith (b.image_url.getD "") "http" = true)
    (hres : resolveImage w (b.image_url.getD "") = (.error msg, effs)) :
    handler w = (⟨500, .err "Internal server error" (some msg)⟩, effs) := by
  have h2 : truthyS b.image_url = true
      ∧ jsStartsWith (b.image_url.getD "") "http" = true := ⟨ht.1, hu⟩
  simp only [handler, hj, if_neg hm, if_neg (not_not_intro ht),
    if_neg (not_not_intro h2), hres]

/-- Persistence stage when the upsert fails: 500 with the datastore detail,
and the trace stops at the attempted upsert. -/
theorem persistStage_upsert_error {w : World} {b : ReqBody}
    {effs : List Effect} {e : String}
    (h : w.upsert (mkUpsertRow b (normalizeRoboflow w.roboflow).2) = .error e) :
    persistStage w b effs =
      (⟨500, .err "Failed to create animal record" (some e)⟩,
       effs ++ [.dbUpsert (mkUpsertRow b (normalizeRoboflow w.roboflow).2)
          "animal_id,user_id"]) := by
  simp only [persistStage, h]

/-- Persistence stage when the upsert succeeds: the log insert is attempted
and the successful response is built, independently of the insert's result. -/
theorem persistStage_upsert_ok {w : World} {b : ReqBody}
    {effs : List Effect} {rec : DbRow}
    (h : w.upsert (mkUpsertRow b (normalizeRoboflow w.roboflow).2) = .ok rec) :
    persistStage w b effs =
      (⟨200, .okBody rec.id (normalizeRoboflow w.roboflow).1
          (normalizeRoboflow w.roboflow).2 (w.nowEnd - w.nowStart)⟩,
       effs ++ [.dbUpsert (mkUpsertRow b (normalizeRoboflow w.roboflow).2)
            "animal_id,user_id",
          .dbInsert ⟨rec.id, b.image_url.getD "",
            (normalizeRoboflow w.roboflow).1, "resnet-50-v1.0",
            w.nowEnd - w.nowStart⟩]) := by
  simp only [persistStage, h, List.append_assoc, List.cons_append,
    List.nil_append]

/-! ### Claim theorems -/

/-- C5: when any of `image_url`, `animal_id`, `user_id`, `animal_type` is
absent or empty in the parsed body, the handler answers 400 with the fixed
message enumerating the four required field names, and the effect trace is
empty: no storage, inference or datastore operation is performed. -/
theorem claim_C5_missing_fields (w : World) (b : ReqBody)
    (hm : ¬ w.method = "OPTIONS")
    (hj : w.reqJson = .ok b)
    (hmiss : ¬(truthyS b.image_url ∧ truthyS b.animal_id ∧ truthyS b.user_id
      ∧ truthyS b.animal_type)) :
    handler w = (⟨400, .err missingFieldsMsg none⟩, []) := by
  simp only [handler, hj, if_neg hm, if_pos hmiss]

/-- Witness for C5: a concrete request missing `animal_id`. -/
def w5 : World :=
  ⟨"POST", .ok ⟨some "http://host/i.jpg", none, some "U1", some "cow"⟩,
   none, fun _ _ => .error "unused", ⟨true, 200, "OK", ⟨[], "image/jpeg"⟩⟩,
   .fetchError "unused", fun _ => .error "unused", fun _ => .ok (), 0, 0⟩

theorem claim_C5_missing_fields_witness :
    handler w5 = (⟨400, .err missingFieldsMsg none⟩, []) :=
  claim_C5_missing_fields w5
    ⟨some "http://host/i.jpg", none, some "U1", some "cow"⟩
    (by decide) rfl (by decide)

/-- C8: when all four fields are present and non-empty but `image_url` does
not start with `"http"`, the thrown `Invalid image URL provided` error is
caught at the top level and surfaced as a 500 internal failure (not a 400)
whose details field carries the original message; no effect occurs. -/
theorem claim_C8_nonhttp_url (w : World) (b : ReqBody)
    (hm : ¬ w.method = "OPTIONS")
    (hj : w.reqJson = .ok b)
    (ht : truthyS b.image_url ∧ truthyS b.animal_id ∧ truthyS b.user_id
      ∧ truthyS b.animal_type)
    (hurl : jsStartsWith (b.image_url.getD "") "http" = false) :
    handler w =
      (⟨500, .err "Internal server error" (some "Invalid image URL provided")⟩,
       []) := by
  have hcond : ¬(truthyS b.image_url = true
      ∧ jsStartsWith (b.image_url.getD "") "http" = true) := by
    intro hcon
    simp [hurl] at hcon
  simp only [handler, hj, if_neg hm, if_neg (not_not_intro ht), if_pos hcond]

/-- Witness for C8: a `file://` URL passes validation but fails the scheme
check. -/
def w8 : World :=
  ⟨"POST", .ok ⟨some "file:///tmp/i.jpg", some "A1", some "U1", some "cow"⟩,
   none, fun _ _ => .error "unused", ⟨true, 200, "OK", ⟨[], "image/jpeg"⟩⟩,
   .fetchError "unused", fun _ => .error "unused", fun _ => .ok (), 0, 0⟩

theorem claim_C8_nonhttp_url_witness :
    handler w8 =
      (⟨500, .err "Internal server error" (some "Invalid image URL provided")⟩,
       []) :=
  claim_C8_nonhttp_url w8
    ⟨some "file:///tmp/i.jpg", some "A1", some "U1", some "cow"⟩
    (by decide) rfl (by decide) (by decide)

/-- C10: a non-preflight request whose body fails to parse as JSON lands in
the top-level catch: a 500 with error `Internal server error` and the parse
error message as details, and no effect is performed. -/
theorem claim_C10_bad_json (w : World) (msg : String)
    (hm : ¬ w.method = "OPTIONS")
    (hj : w.reqJson = .error msg) :
    handler w = (⟨500, .err "Internal server error" (some msg)⟩, []) := by
  simp only [handler, hj, if_neg hm]

/-- Witness for C10: a concrete unparseable body. -/
def w10 : World :=
  ⟨"POST", .error "Unexpected end of JSON input", none,
   fun _ _ => .error "unused", ⟨true, 200, "OK", ⟨[], "image/jpeg"⟩⟩,
   .fetchError "unused", fun _ => .error "unused", fun _ => .ok (), 0, 0⟩

theorem claim_C10_bad_json_witness :
    handler w10 =
      (⟨500, .err "Internal server error"
        (some "Unexpected end of JSON input")⟩, []) :=
  claim_C10_bad_json w10 "Unexpected end of JSON input" (by decide) rfl

/-- C3: once the persistence stage is reached, a failing upsert aborts the
request with a 500 carrying the datastore detail and the log insert is never
attempted; a succeeding upsert followed by a failing log insert leaves the
response unchanged — still the 200 success payload. -/
theorem claim_C3_persistence_failures (w : World) (b : ReqBody) (blob : Blob)
    (effs : List Effect)
    (hm : ¬ w.method = "OPTIONS")
    (hj : w.reqJson = .ok b)
    (ht : truthyS b.image_url ∧ truthyS b.animal_id ∧ truthyS b.user_id
      ∧ truthyS b.animal_type)
    (hu : jsStartsWith (b.image_url.getD "") "http" = true)
    (hres : resolveImage w (b.image_url.getD "") = (.ok blob, effs)) :
    (∀ e, w.upsert (mkUpsertRow b (normalizeRoboflow w.roboflow).2) = .error e →
      (handler w).1 = ⟨500, .err "Failed to create animal record" (some e)⟩ ∧
      ∀ eff ∈ (handler w).2, isDbInsert eff = false) ∧
    (∀ rec msg,
      w.upsert (mkUpsertRow b (normalizeRoboflow w.roboflow).2) = .ok rec →
      w.insertLog ⟨rec.id, b.image_url.getD "",
        (normalizeRoboflow w.roboflow).1, "resnet-50-v1.0",
        w.nowEnd - w.nowStart⟩ = .error msg →
      (handler w).1 = ⟨200, .okBody rec.id (normalizeRoboflow w.roboflow).1
        (normalizeRoboflow w.roboflow).2 (w.nowEnd - w.nowStart)⟩) := by
  have hreach := handler_reach_persist hm hj ht hu hres
  constructor
  · intro e he
    rw [hreach, persistStage_upsert_error he]
    refine ⟨rfl, ?_⟩
    intro eff heff
    simp only [List.append_assoc, List.cons_append, List.nil_append,
      List.mem_append, List.mem_cons, List.not_mem_nil, or_false] at heff
    rcases heff with hin | rfl | rfl
    · have hmem : eff ∈ (resolveImage w (b.image_url.getD "")).2 := by
        rw [hres]
        exact hin
      have hdb := resolveImage_no_db w (b.image_url.getD "") eff hmem
      cases eff <;> simp_all [isDbEffect, isDbInsert]
    · rfl
    · rfl
  · intro rec msg hok hins
    rw [hreach, persistStage_upsert_ok hok]

/-- Witness world for C3: persistence reached, upsert fails. -/
def b3 : ReqBody := ⟨some "http://h/img.jpg", some "A1", some "U1", some "cow"⟩

def w3 : World :=
  ⟨"POST", .ok b3, some "/img.jpg", fun _ _ => .error "nostore",
   ⟨true, 200, "OK", ⟨[7], "image/jpeg"⟩⟩, .fetchError "net down",
   fun _ => .error "db down", fun _ => .error "log down", 0, 5⟩

theorem claim_C3_persistence_failures_witness :
    (handler w3).1 = ⟨500, .err "Failed to create animal record"
      (some "db down")⟩ ∧
    ∀ eff ∈ (handler w3).2, isDbInsert eff = false :=
  (claim_C3_persistence_failures w3 b3 ⟨[7], "image/jpeg"⟩
    [Effect.httpFetch "http://h/img.jpg"]
    (by decide) rfl (by decide) (by decide) rfl).1 "db down" rfl

/-- C6: on a successful request the upserted `animal_records` row carries
exactly the breed and confidence of the head of the prediction list that is
serialized into the `breed_predictions` row written in the same request, its
`verification_status` is the literal `"pending"`, and the upsert's conflict
key is `(animal_id, user_id)`. -/
theorem claim_C6_record_matches_log (w : World) (b : ReqBody) (blob : Blob)
    (effs : List Effect) (rec : DbRow)
    (hm : ¬ w.method = "OPTIONS")
    (hj : w.reqJson = .ok b)
    (ht : truthyS b.image_url ∧ truthyS b.animal_id ∧ truthyS b.user_id
      ∧ truthyS b.animal_type)
    (hu : jsStartsWith (b.image_url.getD "") "http" = true)
    (hres : resolveImage w (b.image_url.getD "") = (.ok blob, effs))
    (hok : w.upsert (mkUpsertRow b (normalizeRoboflow w.roboflow).2)
      = .ok rec) :
    handler w =
      (⟨200, .okBody rec.id (normalizeRoboflow w.roboflow).1
          (normalizeRoboflow w.roboflow).2 (w.nowEnd - w.nowStart)⟩,
       effs ++ [.roboflowCall,
         .dbUpsert (mkUpsertRow b (normalizeRoboflow w.roboflow).2)
           "animal_id,user_id",
         .dbInsert ⟨rec.id, b.image_url.getD "",
           (normalizeRoboflow w.roboflow).1, "resnet-50-v1.0",
           w.nowEnd - w.nowStart⟩]) ∧
    (mkUpsertRow b (normalizeRoboflow w.roboflow).2).predicted_breed
      = ((normalizeRoboflow w.roboflow).1.headD defaultPrediction).breed ∧
    (mkUpsertRow b (normalizeRoboflow w.roboflow).2).confidence_score
      = ((normalizeRoboflow w.roboflow).1.headD defaultPrediction).confidence ∧
    (mkUpsertRow b (normalizeRoboflow w.roboflow).2).verification_status
      = "pending" := by
  refine ⟨?_, ?_, ?_, rfl⟩
  · rw [handler_reach_persist hm hj ht hu hres, persistStage_upsert_ok hok]
    simp [List.append_assoc]
  · show (normalizeRoboflow w.roboflow).2.breed = _
    rw [normalizeRoboflow_snd]
  · show (normalizeRoboflow w.roboflow).2.confidence = _
    rw [normalizeRoboflow_snd]

/-- Witness world for C6: a full successful request with one prediction. -/
def b6 : ReqBody := ⟨some "http://h/img6.jpg", some "A6", some "U6", some "cow"⟩

def w6 : World :=
  ⟨"POST", .ok b6, some "/img6.jpg", fun _ _ => .error "nostore",
   ⟨true, 200, "OK", ⟨[6], "image/jpeg"⟩⟩,
   .success ⟨some [⟨some "Gir", none, some 1⟩]⟩,
   fun _ => .ok ⟨"rec6"⟩, fun _ => .ok (), 0, 9⟩

theorem claim_C6_record_matches_log_witness :
    handler w6 =
      (⟨200, .okBody "rec6" (normalizeRoboflow w6.roboflow).1
          (normalizeRoboflow w6.roboflow).2 9⟩,
       [Effect.httpFetch "http://h/img6.jpg"] ++ [.roboflowCall,
         .dbUpsert (mkUpsertRow b6 (normalizeRoboflow w6.roboflow).2)
           "animal_id,user_id",
         .dbInsert ⟨"rec6", "http://h/img6.jpg",
           (normalizeRoboflow w6.roboflow).1, "resnet-50-v1.0", 9⟩]) ∧
    (mkUpsertRow b6 (normalizeRoboflow w6.roboflow).2).predicted_breed
      = ((normalizeRoboflow w6.roboflow).1.headD defaultPrediction).breed ∧
    (mkUpsertRow b6 (normalizeRoboflow w6.roboflow).2).confidence_score
      = ((normalizeRoboflow w6.roboflow).1.headD defaultPrediction).confidence ∧
    (mkUpsertRow b6 (normalizeRoboflow w6.roboflow).2).verification_status
      = "pending" :=
  claim_C6_record_matches_log w6 b6 ⟨[6], "image/jpeg"⟩
    [Effect.httpFetch "http://h/img6.jpg"] ⟨"rec6"⟩
    (by decide) rfl (by decide) (by decide) rfl rfl

/-- C2 (amended): on any inference-stage failure — thrown fetch or encoding
error, non-ok classifier status, unparseable body, or a response with an
absent or empty `predictions` list — the prediction list is exactly
`[{breed:"unknown", confidence:0}]` with that element as top prediction, and
provided the subsequent AnimalRecord upsert succeeds, the request completes
with the 200 success payload and the written row carries
`predicted_breed = "unknown"`, `confidence_score = 0`. -/
theorem claim_C2_inference_never_fails (w : World) (b : ReqBody) (blob : Blob)
    (effs : List Effect) (rec : DbRow)
    (hm : ¬ w.method = "OPTIONS")
    (hj : w.reqJson = .ok b)
    (ht : truthyS b.image_url ∧ truthyS b.animal_id ∧ truthyS b.user_id
      ∧ truthyS b.animal_type)
    (hu : jsStartsWith (b.image_url.getD "") "http" = true)
    (hres : resolveImage w (b.image_url.getD "") = (.ok blob, effs))
    (hfail : inferFailure w.roboflow = true)
    (hok : w.upsert (mkUpsertRow b defaultPrediction) = .ok rec) :
    normalizeRoboflow w.roboflow = ([defaultPrediction], defaultPrediction) ∧
    handler w =
      (⟨200, .okBody rec.id [defaultPrediction] defaultPrediction
          (w.nowEnd - w.nowStart)⟩,
       effs ++ [.roboflowCall,
         .dbUpsert (mkUpsertRow b defaultPrediction) "animal_id,user_id",
         .dbInsert ⟨rec.id, b.image_url.getD "", [defaultPrediction],
           "resnet-50-v1.0", w.nowEnd - w.nowStart⟩]) ∧
    (mkUpsertRow b defaultPrediction).predicted_breed = "unknown" ∧
    (mkUpsertRow b defaultPrediction).confidence_score = 0 := by
  have hnorm := normalizeRoboflow_of_failure hfail
  have h2 : (normalizeRoboflow w.roboflow).2 = defaultPrediction := by
    rw [hnorm]
  have h1 : (normalizeRoboflow w.roboflow).1 = [defaultPrediction] := by
    rw [hnorm]
  have hok' : w.upsert (mkUpsertRow b (normalizeRoboflow w.roboflow).2)
      = .ok rec := by
    rw [h2]
    exact hok
  refine ⟨hnorm, ?_, rfl, rfl⟩
  rw [handler_reach_persist hm hj ht hu hres, persistStage_upsert_ok hok',
    h1, h2]
  simp [List.append_assoc]

/-- Witness world for C2: classifier network failure, everything else
healthy. -/
def b2 : ReqBody := ⟨some "http://h/img2.jpg", some "A2", some "U2", some "cow"⟩

def w2 : World :=
  ⟨"POST", .ok b2, some "/img2.jpg", fun _ _ => .error "nostore",
   ⟨true, 200, "OK", ⟨[2], "image/jpeg"⟩⟩, .fetchError "endpoint unreachable",
   fun _ => .ok ⟨"rec2"⟩, fun _ => .ok (), 0, 4⟩

theorem claim_C2_inference_never_fails_witness :
    normalizeRoboflow w2.roboflow = ([defaultPrediction], defaultPrediction) ∧
    handler w2 =
      (⟨200, .okBody "rec2" [defaultPrediction] defaultPrediction 4⟩,
       [Effect.httpFetch "http://h/img2.jpg"] ++ [.roboflowCall,
         .dbUpsert (mkUpsertRow b2 defaultPrediction) "animal_id,user_id",
         .dbInsert ⟨"rec2", "http://h/img2.jpg", [defaultPrediction],
           "resnet-50-v1.0", 4⟩]) ∧
    (mkUpsertRow b2 defaultPrediction).predicted_breed = "unknown" ∧
    (mkUpsertRow b2 defaultPrediction).confidence_score = 0 :=
  claim_C2_inference_never_fails w2 b2 ⟨[2], "image/jpeg"⟩
    [Effect.httpFetch "http://h/img2.jpg"] ⟨"rec2"⟩
    (by decide) rfl (by decide) (by decide) rfl rfl rfl

/-- Counterexample world for C2 as stated: the inference stage fails and the
datastore upsert also fails. -/
def w2cex : World :=
  ⟨"POST", .ok ⟨some "http://h/img.jpg", some "A1", some "U1", some "cow"⟩,
   some "/img.jpg", fun _ _ => .error "nostore",
   ⟨true, 200, "OK", ⟨[1], "image/jpeg"⟩⟩, .fetchError "network unreachable",
   fun _ => .error "datastore down", fun _ => .ok (), 0, 5⟩

/-- C2 as frozen is false: with an inference-stage failure the request does
not necessarily complete with `success: true` — if the upsert then fails the
handler returns a 500 error and no record is written. -/
theorem claim_C2_counterexample :
    inferFailure w2cex.roboflow = true ∧
    handler w2cex =
      (⟨500, .err "Failed to create animal record" (some "datastore down")⟩,
       [.httpFetch "http://h/img.jpg", .roboflowCall,
        .dbUpsert ⟨"U1", "A1", "cow", "unknown", 0, "http://h/img.jpg",
          "pending"⟩ "animal_id,user_id"]) ∧
    (handler w2cex).1.status ≠ 200 := by
  refine ⟨rfl, ?_, ?_⟩ <;> decide

/-- C7: when the URL does not match the storage-locator shape, or the
storage download errors, exactly one HTTP fetch of `image_url` occurs; and
if that fetch returns a non-ok status the request fails with a 500 whose
details carry the HTTP status code and reason text. -/
theorem claim_C7_fetch_fallback (w : World) (b : ReqBody)
    (hm : ¬ w.method = "OPTIONS")
    (hj : w.reqJson = .ok b)
    (ht : truthyS b.image_url ∧ truthyS b.animal_id ∧ truthyS b.user_id
      ∧ truthyS b.animal_type)
    (hu : jsStartsWith (b.image_url.getD "") "http" = true)
    (hshape : storageLocator w.urlPathname = none ∨
      ∃ bk pth er, storageLocator w.urlPathname = some (bk, pth)
        ∧ w.storage bk pth = .error er) :
    (resolveImage w (b.image_url.getD "")).2.countP isImageFetch = 1 ∧
    (w.imageFetch.ok = false →
      handler w =
        (⟨500, .err "Internal server error"
            (some ("Failed to fetch image: " ++ toString w.imageFetch.status
              ++ " " ++ w.imageFetch.statusText))⟩,
         (resolveImage w (b.image_url.getD "")).2)) := by
  have hcount :
      (resolveImage w (b.image_url.getD "")).2.countP isImageFetch = 1 := by
    rcases hshape with hloc | ⟨bk, pth, er, hloc, hst⟩
    · by_cases hok : w.imageFetch.ok <;>
        simp [resolveImage, hloc, hok, isImageFetch, List.countP_cons]
    · by_cases hok : w.imageFetch.ok <;>
        simp [resolveImage, hloc, hst, hok, isImageFetch, List.countP_cons]
  refine ⟨hcount, ?_⟩
  intro hok
  have h1 : (resolveImage w (b.image_url.getD "")).1 =
      .error ("Failed to fetch image: " ++ toString w.imageFetch.status
        ++ " " ++ w.imageFetch.statusText) := by
    rcases hshape with hloc | ⟨bk, pth, er, hloc, hst⟩
    · simp [resolveImage, hloc, hok]
    · simp [resolveImage, hloc, hst, hok]
  have hres : resolveImage w (b.image_url.getD "") =
      (.error ("Failed to fetch image: " ++ toString w.imageFetch.status
        ++ " " ++ w.imageFetch.statusText),
       (resolveImage w (b.image_url.getD "")).2) := by
    rw [← h1]
  exact handler_image_error hm hj ht hu hres

/-- Witness world for C7: no storage-locator shape, fetch returns 404. -/
def b7 : ReqBody := ⟨some "http://h/img7.jpg", some "A7", some "U7", some "cow"⟩

def w7 : World :=
  ⟨"POST", .ok b7, some "/img7.jpg", fun _ _ => .error "nostore",
   ⟨false, 404, "Not Found", ⟨[], "image/jpeg"⟩⟩, .fetchError "unused",
   fun _ => .error "unused", fun _ => .ok (), 0, 0⟩

theorem claim_C7_fetch_fallback_witness :
    (resolveImage w7 "http://h/img7.jpg").2.countP isImageFetch = 1 ∧
    handler w7 =
      (⟨500, .err "Internal server error"
          (some "Failed to fetch image: 404 Not Found")⟩,
       (resolveImage w7 "http://h/img7.jpg").2) := by
  have hc := claim_C7_fetch_fallback w7 b7 (by decide) rfl (by decide)
    (by decide) (Or.inl rfl)
  exact ⟨hc.1, hc.2 rfl⟩

/-- C4: when the URL path contains a `public` segment followed by a bucket
segment, the resolver's first external call is the storage download of that
bucket and the re-joined remaining path; if the download succeeds no HTTP
fetch happens at all, and in every success exactly one of the storage
download or the HTTP fetch supplies the final blob. -/
theorem claim_C4_storage_first (w : World) (u bk pth : String)
    (hloc : storageLocator w.urlPathname = some (bk, pth)) :
    (∃ rest, (resolveImage w u).2 = .storageDownload bk pth :: rest) ∧
    (∀ blob, w.storage bk pth = .ok blob →
      resolveImage w u = (.ok blob, [.storageDownload bk pth])) ∧
    (∀ blob, (resolveImage w u).1 = .ok blob →
      (w.storage bk pth = .ok blob ∧
        (resolveImage w u).2.countP isImageFetch = 0) ∨
      ((∃ e, w.storage bk pth = .error e) ∧ w.imageFetch.ok = true ∧
        blob = w.imageFetch.blob ∧
        (resolveImage w u).2.countP isImageFetch = 1)) := by
  rcases hst : w.storage bk pth with er | bl
  · refine ⟨?_, ?_, ?_⟩
    · by_cases hok : w.imageFetch.ok <;>
        exact ⟨[.httpFetch u], by simp [resolveImage, hloc, hst, hok]⟩
    · intro blob hcon
      simp at hcon
    · intro blob hblob
      by_cases hok : w.imageFetch.ok
      · right
        refine ⟨⟨er, rfl⟩, hok, ?_, ?_⟩
        · have : (resolveImage w u).1 = .ok w.imageFetch.blob := by
            simp [resolveImage, hloc, hst, hok]
          rw [this] at hblob
          exact (Except.ok.inj hblob).symm
        · simp [resolveImage, hloc, hst, hok, isImageFetch, List.countP_cons]
      · exfalso
        have : (resolveImage w u).1 = .error ("Failed to fetch image: "
            ++ toString w.imageFetch.status ++ " " ++ w.imageFetch.statusText)
            := by
          simp [resolveImage, hloc, hst, hok]
        rw [this] at hblob
        cases hblob
  · refine ⟨?_, ?_, ?_⟩
    · exact ⟨[], by simp [resolveImage, hloc, hst]⟩
    · intro blob hblob
      rw [← Except.ok.inj hblob]
      simp [resolveImage, hloc, hst]
    · intro blob hblob
      left
      have heval : resolveImage w u = (.ok bl, [.storageDownload bk pth]) := by
        simp [resolveImage, hloc, hst]
      rw [heval] at hblob
      constructor
      · exact hblob
      · rw [heval]
        simp [isImageFetch, List.countP_cons]

/-- Witness world for C4: a storage-shaped URL whose download succeeds. -/
def w4 : World :=
  ⟨"POST",
   .ok ⟨some "http://h/storage/v1/object/public/animal-images/abc.jpg",
     some "A4", some "U4", some "cow"⟩,
   some "/storage/v1/object/public/animal-images/abc.jpg",
   fun _ _ => .ok ⟨[4], "image/jpeg"⟩,
   ⟨true, 200, "OK", ⟨[9], "image/jpeg"⟩⟩, .fetchError "unused",
   fun _ => .ok ⟨"rec4"⟩, fun _ => .ok (), 0, 0⟩

theorem claim_C4_storage_first_witness :
    (∃ rest,
      (resolveImage w4 "http://h/storage/v1/object/public/animal-images/abc.jpg").2
        = .storageDownload "animal-images" "abc.jpg" :: rest) ∧
    resolveImage w4 "http://h/storage/v1/object/public/animal-images/abc.jpg"
      = (.ok ⟨[4], "image/jpeg"⟩,
         [.storageDownload "animal-images" "abc.jpg"]) := by
  have hc := claim_C4_storage_first w4
    "http://h/storage/v1/object/public/animal-images/abc.jpg"
    "animal-images" "abc.jpg" (by decide)
  exact ⟨hc.1, hc.2.1 ⟨[4], "image/jpeg"⟩ rfl⟩

/-- Every member of the normalized list is either the default prediction or
the normalization of some raw prediction of a successful response. -/
theorem normalizeRoboflow_mem (o : RoboflowOutcome) (p : Prediction)
    (hp : p ∈ (normalizeRoboflow o).1) :
    p = defaultPrediction ∨
    ∃ q preds, o = .success ⟨some preds⟩ ∧ q ∈ preds ∧ p = normPred q := by
  cases o with
  | success r =>
    rcases r with ⟨preds⟩
    cases preds with
    | none =>
      left
      simpa [normalizeRoboflow] using hp
    | some l =>
      by_cases h : l.length > 0
      · right
        simp only [normalizeRoboflow, if_pos h] at hp
        rcases List.mem_map.mp hp with ⟨q, hq, rfl⟩
        exact ⟨q, l, rfl,
          mem_sortPreds.mp (List.take_subset 3 (sortPreds l) hq), rfl⟩
      · left
        simpa [normalizeRoboflow, h] using hp
  | fetchError msg =>
    left
    simpa [normalizeRoboflow] using hp
  | httpFail s t =>
    left
    simpa [normalizeRoboflow] using hp
  | jsonError msg =>
    left
    simpa [normalizeRoboflow] using hp

/-- C1 (amended): for a classifier response with `N ≥ 1` predictions, each
carrying a confidence field, the normalized list is the first three of the
stable descending sort mapped through the per-prediction normalization; it
has `min(N, 3)` entries, the sort is a permutation of the response ordered
by descending original confidence, the rounded output confidences are
descending as well, and the top prediction is the head of the list. -/
theorem claim_C1_ranked_truncated (preds : List RawPred)
    (hne : preds ≠ [])
    (hall : ∀ p ∈ preds, p.confidence.isSome) :
    (normalizeRoboflow (.success ⟨some preds⟩)).1
      = ((sortPreds preds).take 3).map normPred ∧
    (normalizeRoboflow (.success ⟨some preds⟩)).1.length
      = min preds.length 3 ∧
    (sortPreds preds).Perm preds ∧
    (sortPreds preds).Pairwise
      (fun a b => b.confidence.getD 0 ≤ a.confidence.getD 0) ∧
    (normalizeRoboflow (.success ⟨some preds⟩)).1.Pairwise
      (fun a b => b.confidence ≤ a.confidence) ∧
    (normalizeRoboflow (.success ⟨some preds⟩)).2
      = (normalizeRoboflow (.success ⟨some preds⟩)).1.headD
          defaultPrediction ∧
    (normalizeRoboflow (.success ⟨some preds⟩)).1 ≠ [] := by
  have hlen0 : preds.length > 0 := List.length_pos.mpr hne
  have heq : (normalizeRoboflow (.success ⟨some preds⟩)).1
      = ((sortPreds preds).take 3).map normPred := by
    simp [normalizeRoboflow, hlen0]
  refine ⟨heq, ?_, sortPreds_perm preds, sortPreds_pairwise hall, ?_,
    normalizeRoboflow_snd _, normalizeRoboflow_fst_ne_nil _⟩
  · rw [heq, List.length_map, List.length_take,
      (sortPreds_perm preds).length_eq, Nat.min_comm]
  · rw [heq]
    have htake := (sortPreds_pairwise hall).sublist
      (List.take_sublist 3 (sortPreds preds))
    refine List.pairwise_map.mpr (htake.imp ?_)
    intro a b hab
    exact round2_mono hab

/-- Witness predictions for C1: the spec's two-entry example. -/
def preds1 : List RawPred :=
  [⟨some "Labrador", none, some (Rat.divInt 872 1000)⟩,
   ⟨some "Beagle", none, some (Rat.divInt 201 1000)⟩]

theorem claim_C1_ranked_truncated_witness :
    (normalizeRoboflow (.success ⟨some preds1⟩)).1
      = ((sortPreds preds1).take 3).map normPred ∧
    (normalizeRoboflow (.success ⟨some preds1⟩)).1.length
      = min preds1.length 3 ∧
    (sortPreds preds1).Perm preds1 ∧
    (sortPreds preds1).Pairwise
      (fun a b => b.confidence.getD 0 ≤ a.confidence.getD 0) ∧
    (normalizeRoboflow (.success ⟨some preds1⟩)).1.Pairwise
      (fun a b => b.confidence ≤ a.confidence) ∧
    (normalizeRoboflow (.success ⟨some preds1⟩)).2
      = (normalizeRoboflow (.success ⟨some preds1⟩)).1.headD
          defaultPrediction ∧
    (normalizeRoboflow (.success ⟨some preds1⟩)).1 ≠ [] :=
  claim_C1_ranked_truncated preds1 (by decide) (by decide)

/-- Counterexample predictions for C1 as stated: the first entry has no
confidence field, so the JS comparator returns `NaN` (treated as a tie) and
the pair is left in its original, unsorted order. -/
def c1preds : List RawPred :=
  [⟨some "breedA", none, none⟩, ⟨some "breedB", none, some 1⟩]

/-- C1 as frozen is false: with an absent confidence field the returned list
is not sorted by descending (defaulted) confidence — neither the sorted raw
list nor the normalized output is descending. -/
theorem claim_C1_counterexample :
    c1preds.length ≥ 1 ∧
    ¬ (sortPreds c1preds).Pairwise
      (fun a b => b.confidence.getD 0 ≤ a.confidence.getD 0) ∧
    ¬ (normalizeRoboflow (.success ⟨some c1preds⟩)).1.Pairwise
      (fun a b => b.confidence ≤ a.confidence) := by
  refine ⟨by decide, by decide, ?_⟩
  have h0 : round2 0 = 0 := by norm_num [round2]
  have h1 : round2 1 = 1 := by norm_num [round2]
  have heval : (normalizeRoboflow (.success ⟨some c1preds⟩)).1
      = [⟨"breedA", 0⟩, ⟨"breedB", 1⟩] := by
    simp [normalizeRoboflow, c1preds, sortPreds, insertPred, jsLe, normPred,
      jsOrS, h0, h1]
  rw [heval]
  intro hp
  have hrel := List.rel_of_pairwise_cons hp (List.mem_cons_self _ _)
  norm_num at hrel

/-- The C9 hypothesis: every raw confidence of the response (defaulted to 0
when absent) lies in `[0, 1]`. -/
def rawConfidencesIn01 : RoboflowOutcome → Bool
  | .success r =>
    match r.predictions with
    | some preds =>
      preds.all (fun q =>
        decide (0 ≤ q.confidence.getD 0) && decide (q.confidence.getD 0 ≤ 1))
    | none => true
  | _ => true

/-- C9 (amended): every produced confidence is an integer number of
hundredths (two decimal places), and it lies in `[0, 1]` provided the raw
confidences do — the code does not clamp out-of-range values. -/
theorem claim_C9_confidences (o : RoboflowOutcome) :
    (∀ p ∈ (normalizeRoboflow o).1, ∃ k : ℤ, p.confidence = (k : ℚ) / 100) ∧
    (rawConfidencesIn01 o = true →
      ∀ p ∈ (normalizeRoboflow o).1,
        0 ≤ p.confidence ∧ p.confidence ≤ 1) := by
  constructor
  · intro p hp
    rcases normalizeRoboflow_mem o p hp with rfl | ⟨q, preds, rfl, hq, rfl⟩
    · exact ⟨0, by norm_num [defaultPrediction]⟩
    · exact ⟨⌊q.confidence.getD 0 * 100 + 1 / 2⌋, rfl⟩
  · intro h01 p hp
    rcases normalizeRoboflow_mem o p hp with rfl | ⟨q, preds, rfl, hq, rfl⟩
    · constructor <;> norm_num [defaultPrediction]
    · have hq01 : 0 ≤ q.confidence.getD 0 ∧ q.confidence.getD 0 ≤ 1 := by
        simp only [rawConfidencesIn01, List.all_eq_true, Bool.and_eq_true,
          decide_eq_true_eq] at h01
        exact h01 q hq
      exact ⟨round2_nonneg hq01.1, round2_le_one hq01.2⟩

/-- Witness outcome for C9: one in-range confidence. -/
def o9 : RoboflowOutcome :=
  .success ⟨some [⟨some "Gir", none, some (Rat.divInt 872 1000)⟩]⟩

theorem claim_C9_confidences_witness :
    rawConfidencesIn01 o9 = true ∧
    (∀ p ∈ (normalizeRoboflow o9).1, ∃ k : ℤ, p.confidence = (k : ℚ) / 100) ∧
    (∀ p ∈ (normalizeRoboflow o9).1,
      0 ≤ p.confidence ∧ p.confidence ≤ 1) :=
  ⟨by decide, (claim_C9_confidences o9).1, (claim_C9_confidences o9).2
    (by decide)⟩

/-- Counterexample outcome for C9 as stated: a raw confidence of 2. -/
def o9cex : RoboflowOutcome :=
  .success ⟨some [⟨some "breedX", none, some 2⟩]⟩

/-- C9 as frozen is false: the code does not clamp confidences into `[0,1]`;
a raw confidence of 2 is produced as 2. -/
theorem claim_C9_counterexample :
    ((normalizeRoboflow o9cex).1.headD defaultPrediction).confidence = 2 ∧
    ¬ (∀ p ∈ (normalizeRoboflow o9cex).1,
        0 ≤ p.confidence ∧ p.confidence ≤ 1) := by
  have h2 : round2 2 = 2 := by norm_num [round2]
  have heval : (normalizeRoboflow o9cex).1 = [⟨"breedX", 2⟩] := by
    simp [normalizeRoboflow, o9cex, sortPreds, insertPred, jsLe, normPred,
      jsOrS, h2]
  constructor
  · rw [heval]
    rfl
  · rw [heval]
    intro hforall
    have hbad := (hforall ⟨"breedX", 2⟩ (by simp)).2
    norm_num at hbad
